import Mathlib

/-!
Shallow embedding of the Customizer application (src/App.tsx).

The component keeps its state in React hooks:
  logoConfig       : { url, x, y, scale, rotation }  (initial scale 30)
  activeStep       : 1 | 2 | 3 | 4
  analysis         : AnalysisResult | null
  fileError        : string | null
  processingStatus : string
  redirectStatus   : idle | saving | redirecting

The handlers embedded here are handleFileUpload (size guard, FileReader
onload body with its try/catch/finally), resetUpload, handleShopifyCheckout,
and the four slider onChange handlers. The asynchronous onload body is
modelled as a list of atomic state updates (one per setState call), so that
interleavings of two overlapping uploads can be expressed; a single
uninterrupted run is the left fold of its own event list.
-/

/-- Embeds the AnalysisResult consumed from analyzeDesign: isPrintable,
recommendedScale (a number that may be absent), suggestedColors,
estimatedPrice, reasoning. -/
structure AnalysisResult where
  isPrintable : Bool
  recommendedScale : Option ℚ
  suggestedColors : List String
  estimatedPrice : ℚ
  reasoning : String
deriving DecidableEq

/-- Embeds the LogoConfig state: url, x, y, scale, rotation. -/
structure LogoConfig where
  url : Option String
  x : ℚ
  y : ℚ
  scale : ℚ
  rotation : ℚ
deriving DecidableEq

/-- Embeds the redirectStatus union type. -/
inductive RedirectStatus where
  | idle
  | saving
  | redirecting
deriving DecidableEq

/-- The React state of the App component, one field per useState hook that
the embedded handlers read or write. -/
structure AppState where
  logoConfig : LogoConfig
  activeStep : ℕ
  analysis : Option AnalysisResult
  fileError : Option String
  processingStatus : String
  redirectStatus : RedirectStatus
deriving DecidableEq

/-- The error message set by the size guard. -/
def errTooLarge : String := "File too large. Max 5MB."

/-- The error message set by the catch block of the onload body. -/
def errVerify : String := "System Error: Could not verify design."

/-- The processing status shown while processLogo runs. -/
def statusRemoving : String := "Removing background & Centering..."

/-- The processing status shown while analyzeDesign runs. -/
def statusAnalyzing : String := "AI optimizing scale & printability..."

/-- The min attribute of the two position sliders. -/
def printBoundsOffsetMin : ℚ := -15

/-- The max attribute of the two position sliders. -/
def printBoundsOffsetMax : ℚ := 15

/-- The min attribute of the scale slider. -/
def printBoundsScaleMin : ℚ := 5

/-- The max attribute of the scale slider. -/
def printBoundsScaleMax : ℚ := 39

/-- The initial state of the useState hooks: logoConfig starts at
url null, x 0, y 0, scale 30, rotation 0; activeStep 1; analysis null;
fileError null; processingStatus empty; redirectStatus idle. -/
def initialState : AppState :=
  { logoConfig := { url := none, x := 0, y := 0, scale := 30, rotation := 0 }
    activeStep := 1
    analysis := none
    fileError := none
    processingStatus := ""
    redirectStatus := RedirectStatus.idle }

/-- Embeds the JS expression aiResult.recommendedScale || 36: a missing
recommendation falls back to 36, and so does a recommendation of 0,
because 0 is falsy in JS. -/
def recommendedScaleOrDefault (r : Option ℚ) : ℚ :=
  match r with
  | none => 36
  | some q => if q = 0 then 36 else q

/-- One atomic state update of handleFileUpload, in source order:
syncStart is the pair setFileError(null); setActiveStep(2) run before the
FileReader starts; statusSet is a setProcessingStatus call; processedLoaded
is the setLogoConfig call after processLogo resolves; analysisDone is
setAnalysis plus the conditional scale update and setActiveStep(3);
caught is the catch block; statusCleared is the finally block. -/
inductive UploadEvent where
  | syncStart
  | statusSet (msg : String)
  | processedLoaded (img : String)
  | analysisDone (a : AnalysisResult)
  | caught
  | statusCleared
deriving DecidableEq

/-- Applies one atomic update of handleFileUpload to the state, mirroring
the corresponding setState calls of the source. -/
def applyEvent (s : AppState) : UploadEvent → AppState
  | UploadEvent.syncStart =>
      { s with fileError := none, activeStep := 2 }
  | UploadEvent.statusSet m =>
      { s with processingStatus := m }
  | UploadEvent.processedLoaded img =>
      { s with logoConfig :=
          { url := some img, x := 0, y := 0, scale := 30, rotation := 0 } }
  | UploadEvent.analysisDone a =>
      if a.isPrintable then
        { s with analysis := some a
                 logoConfig := { s.logoConfig with
                   scale := recommendedScaleOrDefault a.recommendedScale }
                 activeStep := 3 }
      else
        { s with analysis := some a }
  | UploadEvent.caught =>
      { s with fileError := some errVerify, activeStep := 1 }
  | UploadEvent.statusCleared =>
      { s with processingStatus := "" }

/-- Folds a list of atomic updates over a state. -/
def runEvents (s : AppState) (es : List UploadEvent) : AppState :=
  es.foldl applyEvent s

/-- How one pipeline run can end: processLogo throws, analyzeDesign throws
after processLogo resolved, or both resolve (the verdict itself may still
say not printable). -/
inductive PipelineOutcome where
  | processFailed
  | analysisFailed (img : String)
  | completed (img : String) (a : AnalysisResult)
deriving DecidableEq

/-- The sequence of atomic updates one run of handleFileUpload performs
after passing the size guard, for each way the run can end; the catch
block fires on a throw and the finally block always runs last. -/
def outcomeEvents : PipelineOutcome → List UploadEvent
  | PipelineOutcome.processFailed =>
      [UploadEvent.syncStart, UploadEvent.statusSet statusRemoving,
       UploadEvent.caught, UploadEvent.statusCleared]
  | PipelineOutcome.analysisFailed img =>
      [UploadEvent.syncStart, UploadEvent.statusSet statusRemoving,
       UploadEvent.processedLoaded img, UploadEvent.statusSet statusAnalyzing,
       UploadEvent.caught, UploadEvent.statusCleared]
  | PipelineOutcome.completed img a =>
      [UploadEvent.syncStart, UploadEvent.statusSet statusRemoving,
       UploadEvent.processedLoaded img, UploadEvent.statusSet statusAnalyzing,
       UploadEvent.analysisDone a, UploadEvent.statusCleared]

/-- Embeds handleFileUpload run to completion without interference: the
size guard rejects files over 5 * 1024 * 1024 bytes by setting fileError
and returning, and otherwise the updates of the run are applied in order. -/
def handleFileUpload (fileSize : ℕ) (o : PipelineOutcome) (s : AppState) :
    AppState :=
  if fileSize > 5 * 1024 * 1024 then
    { s with fileError := some errTooLarge }
  else
    runEvents s (outcomeEvents o)

/-- Embeds resetUpload: clears logoConfig.url (keeping x, y, scale,
rotation), clears analysis, returns to step 1, and sets redirectStatus to
idle. -/
def resetUpload (s : AppState) : AppState :=
  { s with logoConfig := { s.logoConfig with url := none }
           analysis := none
           activeStep := 1
           redirectStatus := RedirectStatus.idle }

/-- Embeds the x position slider onChange handler: stores the parsed value
into logoConfig.x. -/
def onChangePositionX (v : ℚ) (s : AppState) : AppState :=
  { s with logoConfig := { s.logoConfig with x := v } }

/-- Embeds the y position slider onChange handler: stores the parsed value
into logoConfig.y. -/
def onChangePositionY (v : ℚ) (s : AppState) : AppState :=
  { s with logoConfig := { s.logoConfig with y := v } }

/-- Embeds the scale slider onChange handler: stores the parsed value into
logoConfig.scale. -/
def onChangeScale (v : ℚ) (s : AppState) : AppState :=
  { s with logoConfig := { s.logoConfig with scale := v } }

/-- Embeds the rotation slider onChange handler: stores the parsed value
into logoConfig.rotation. -/
def onChangeRotation (v : ℚ) (s : AppState) : AppState :=
  { s with logoConfig := { s.logoConfig with rotation := v } }

/-- Embeds handleShopifyCheckout: the guard returns immediately when
analysis is null (logoConfig, the other guarded value, is never null);
otherwise the design is saved and the redirect is issued, summarised here
as the saved pair, with redirectStatus left at redirecting. -/
def handleShopifyCheckout (s : AppState) :
    AppState × Option (LogoConfig × AnalysisResult) :=
  match s.analysis with
  | none => (s, none)
  | some a =>
      ({ s with redirectStatus := RedirectStatus.redirecting },
       some (s.logoConfig, a))

/-- Embeds the verification-failed branch of the render: the reasoning
text of the verdict is shown exactly when activeStep is 2, an analysis is
present, and it is not printable. -/
def verificationFailedMessage (s : AppState) : Option String :=
  if s.activeStep = 2 then
    match s.analysis with
    | some a => if a.isPrintable then none else some a.reasoning
    | none => none
  else
    none

/-- The interleaving in which upload A passes its guard and sets its first
processing status, upload B then starts and runs to completion while A is
awaiting processLogo, and finally the remaining asynchronous updates of A
land. Nothing in the source rejects the late updates of A. -/
def staleInterleaving (imgA imgB : String) (aA aB : AnalysisResult) :
    List UploadEvent :=
  [UploadEvent.syncStart, UploadEvent.statusSet statusRemoving]
    ++ outcomeEvents (PipelineOutcome.completed imgB aB)
    ++ [UploadEvent.processedLoaded imgA, UploadEvent.statusSet statusAnalyzing,
        UploadEvent.analysisDone aA, UploadEvent.statusCleared]

/-- A printable verdict with recommendedScale 28, as in Scenario 3. -/
def verdict28 : AnalysisResult :=
  { isPrintable := true
    recommendedScale := some 28
    suggestedColors := []
    estimatedPrice := 0
    reasoning := "" }

/-- A printable verdict whose recommendedScale 0 is present but falsy. -/
def verdictZero : AnalysisResult :=
  { isPrintable := true
    recommendedScale := some 0
    suggestedColors := []
    estimatedPrice := 0
    reasoning := "" }

/-- A printable verdict with recommendedScale 100, outside the range 5 to
39 of the scale slider. -/
def verdict100 : AnalysisResult :=
  { isPrintable := true
    recommendedScale := some 100
    suggestedColors := []
    estimatedPrice := 0
    reasoning := "" }

/-- A verdict that is not printable, with a nonempty reasoning text. -/
def verdictRejected : AnalysisResult :=
  { isPrintable := false
    recommendedScale := some 20
    suggestedColors := []
    estimatedPrice := 0
    reasoning := "Too thin for FDM." }

/-- Image payloads used by concrete witnesses. -/
def imgA : String := "a.png"

/-- A second image payload used by concrete witnesses. -/
def imgB : String := "b.png"

/-- A state whose transform a user has edited away from the defaults. -/
def editedState : AppState :=
  onChangeRotation 1 (onChangeScale 12 (onChangePositionX 7 initialState))

/-- Sanity check of the embedding: an uninterrupted successful run is the
size guard followed by the fold of its own event list. -/
theorem handleFileUpload_completed_eq (s : AppState) (img : String)
    (a : AnalysisResult) (n : ℕ) (hn : ¬ n > 5 * 1024 * 1024) :
    handleFileUpload n (PipelineOutcome.completed img a) s =
      runEvents s (outcomeEvents (PipelineOutcome.completed img a)) := by
  simp [handleFileUpload, hn]

/-- C1 counterexample: the slider onChange handlers do not clamp. Calling
the scale handler with 100 stores 100, not 39; calling it with -10 stores
-10, not 5; calling the x handler with 100 stores 100, outside the range
-15 to 15. -/
theorem c1_counterexample :
    (onChangeScale 100 initialState).logoConfig.scale = 100 ∧
    (onChangeScale 100 initialState).logoConfig.scale ≠ printBoundsScaleMax ∧
    ¬ (onChangeScale 100 initialState).logoConfig.scale ≤ printBoundsScaleMax ∧
    (onChangeScale (-10) initialState).logoConfig.scale = -10 ∧
    (onChangeScale (-10) initialState).logoConfig.scale ≠ printBoundsScaleMin ∧
    (onChangePositionX 100 initialState).logoConfig.x = 100 ∧
    ¬ (onChangePositionX 100 initialState).logoConfig.x ≤ printBoundsOffsetMax := by
  refine ⟨rfl, by decide, by decide, rfl, by decide, rfl, by decide⟩

/-- C1 (amended): the four slider onChange handlers store the parsed value
unchanged, with no clamping and no wrapping; range enforcement exists only
in the min and max attributes of the HTML range inputs, so a programmatic
caller can drive every transform field outside the PrintBounds ranges. -/
theorem c1_amended (v : ℚ) (s : AppState) :
    (onChangeScale v s).logoConfig.scale = v ∧
    (onChangePositionX v s).logoConfig.x = v ∧
    (onChangePositionY v s).logoConfig.y = v ∧
    (onChangeRotation v s).logoConfig.rotation = v :=
  ⟨rfl, rfl, rfl, rfl⟩

/-- C2 counterexample: a printable verdict whose recommendedScale is
present and equal to 0 does not yield scale 0; the JS falsy fallback makes
the resulting scale 36. -/
theorem c2_counterexample :
    (handleFileUpload 1000 (PipelineOutcome.completed imgA verdictZero)
        initialState).logoConfig.scale = 36 ∧
    verdictZero.recommendedScale = some 0 ∧
    (36 : ℚ) ≠ 0 := by
  refine ⟨by decide, rfl, by decide⟩

/-- C2 (amended): applying a printable verdict to the uninitialized state
yields the default-placed state: activeStep 3, offsets (0,0), rotation 0,
the processed image installed, and scale equal to
recommendedScaleOrDefault of the verdict, which is the recommendation when
it is present and nonzero and the fixed default 36 when it is absent or 0
(the code uses a JS truthiness fallback). -/
theorem c2_amended (a : AnalysisResult) (img : String) (n : ℕ)
    (hn : n ≤ 5 * 1024 * 1024) (h : a.isPrintable = true) :
    (handleFileUpload n (PipelineOutcome.completed img a)
        initialState).activeStep = 3 ∧
    (handleFileUpload n (PipelineOutcome.completed img a)
        initialState).logoConfig.x = 0 ∧
    (handleFileUpload n (PipelineOutcome.completed img a)
        initialState).logoConfig.y = 0 ∧
    (handleFileUpload n (PipelineOutcome.completed img a)
        initialState).logoConfig.rotation = 0 ∧
    (handleFileUpload n (PipelineOutcome.completed img a)
        initialState).logoConfig.url = some img ∧
    (handleFileUpload n (PipelineOutcome.completed img a)
        initialState).logoConfig.scale =
      recommendedScaleOrDefault a.recommendedScale ∧
    recommendedScaleOrDefault none = 36 ∧
    recommendedScaleOrDefault (some 28) = 28 := by
  have hn' : ¬ n > 5 * 1024 * 1024 := by omega
  simp [handleFileUpload, hn', runEvents, outcomeEvents, applyEvent, h,
    recommendedScaleOrDefault]

/-- C2 witness: Scenario 3 concretely, with recommendedScale 28. -/
theorem c2_witness :
    (handleFileUpload 1000 (PipelineOutcome.completed imgA verdict28)
        initialState).activeStep = 3 ∧
    (handleFileUpload 1000 (PipelineOutcome.completed imgA verdict28)
        initialState).logoConfig.x = 0 ∧
    (handleFileUpload 1000 (PipelineOutcome.completed imgA verdict28)
        initialState).logoConfig.y = 0 ∧
    (handleFileUpload 1000 (PipelineOutcome.completed imgA verdict28)
        initialState).logoConfig.rotation = 0 ∧
    (handleFileUpload 1000 (PipelineOutcome.completed imgA verdict28)
        initialState).logoConfig.url = some imgA ∧
    (handleFileUpload 1000 (PipelineOutcome.completed imgA verdict28)
        initialState).logoConfig.scale =
      recommendedScaleOrDefault verdict28.recommendedScale ∧
    recommendedScaleOrDefault none = 36 ∧
    recommendedScaleOrDefault (some 28) = 28 :=
  c2_amended verdict28 imgA 1000 (by omega) rfl

/-- C3 counterexample: a printable verdict with recommendedScale 100 is
applied unclamped; the resulting transform scale is 100, outside 5 to 39. -/
theorem c3_counterexample :
    (handleFileUpload 1000 (PipelineOutcome.completed imgA verdict100)
        initialState).logoConfig.scale = 100 ∧
    ¬ (handleFileUpload 1000 (PipelineOutcome.completed imgA verdict100)
        initialState).logoConfig.scale ≤ printBoundsScaleMax := by
  refine ⟨by decide, by decide⟩

/-- C3 (amended): the recommendation of a printable verdict is applied to
the transform without any clamping: whenever it is present and nonzero the
resulting scale equals the recommendation itself, whatever its magnitude,
so an out-of-range recommendation leaves the transform scale outside 5 to
39. -/
theorem c3_amended (q : ℚ) (a : AnalysisResult) (img : String)
    (s : AppState) (n : ℕ) (hn : n ≤ 5 * 1024 * 1024)
    (h : a.isPrintable = true) (hq : a.recommendedScale = some q)
    (hq0 : q ≠ 0) :
    (handleFileUpload n (PipelineOutcome.completed img a) s).logoConfig.scale
      = q := by
  have hn' : ¬ n > 5 * 1024 * 1024 := by omega
  simp [handleFileUpload, hn', runEvents, outcomeEvents, applyEvent, h,
    recommendedScaleOrDefault, hq, hq0]

/-- C3 witness: recommendedScale 100 lands as scale 100. -/
theorem c3_witness :
    (handleFileUpload 2000 (PipelineOutcome.completed imgB verdict100)
        editedState).logoConfig.scale = 100 :=
  c3_amended 100 verdict100 imgB editedState 2000 (by omega) rfl rfl
    (by decide)

/-- C4: when the verdict is not printable the run does not advance to
placement editing: activeStep stays at 2, the transform keeps the default
scale 30 with offsets (0,0) and rotation 0 (no recommended scale is
applied), the verdict is stored, and the verification-failed branch of the
render shows the reasoning text of the verdict verbatim. -/
theorem c4_notPrintable (a : AnalysisResult) (img : String) (s : AppState)
    (n : ℕ) (hn : n ≤ 5 * 1024 * 1024) (h : a.isPrintable = false) :
    (handleFileUpload n (PipelineOutcome.completed img a) s).activeStep = 2 ∧
    (handleFileUpload n (PipelineOutcome.completed img a) s).logoConfig.scale
      = 30 ∧
    (handleFileUpload n (PipelineOutcome.completed img a) s).logoConfig.x
      = 0 ∧
    (handleFileUpload n (PipelineOutcome.completed img a) s).logoConfig.y
      = 0 ∧
    (handleFileUpload n (PipelineOutcome.completed img a) s).analysis
      = some a ∧
    verificationFailedMessage
        (handleFileUpload n (PipelineOutcome.completed img a) s)
      = some a.reasoning := by
  have hn' : ¬ n > 5 * 1024 * 1024 := by omega
  simp [handleFileUpload, hn', runEvents, outcomeEvents, applyEvent, h,
    verificationFailedMessage]

/-- C4 witness: a concrete rejected verdict surfaces its reasoning. -/
theorem c4_witness :
    (handleFileUpload 1000 (PipelineOutcome.completed imgA verdictRejected)
        initialState).activeStep = 2 ∧
    (handleFileUpload 1000 (PipelineOutcome.completed imgA verdictRejected)
        initialState).logoConfig.scale = 30 ∧
    (handleFileUpload 1000 (PipelineOutcome.completed imgA verdictRejected)
        initialState).logoConfig.x = 0 ∧
    (handleFileUpload 1000 (PipelineOutcome.completed imgA verdictRejected)
        initialState).logoConfig.y = 0 ∧
    (handleFileUpload 1000 (PipelineOutcome.completed imgA verdictRejected)
        initialState).analysis = some verdictRejected ∧
    verificationFailedMessage
        (handleFileUpload 1000 (PipelineOutcome.completed imgA verdictRejected)
          initialState)
      = some verdictRejected.reasoning :=
  c4_notPrintable verdictRejected imgA initialState 1000 (by omega) rfl

/-- C5: an upload over 5 * 1024 * 1024 bytes only sets the TooLarge error
message; the step, the transform, the analysis, the processing status and
the redirect status are all untouched, whatever the pipeline would have
produced. -/
theorem c5_tooLarge (n : ℕ) (o : PipelineOutcome) (s : AppState)
    (hn : n > 5 * 1024 * 1024) :
    (handleFileUpload n o s).fileError = some errTooLarge ∧
    (handleFileUpload n o s).activeStep = s.activeStep ∧
    (handleFileUpload n o s).logoConfig = s.logoConfig ∧
    (handleFileUpload n o s).analysis = s.analysis ∧
    (handleFileUpload n o s).processingStatus = s.processingStatus ∧
    (handleFileUpload n o s).redirectStatus = s.redirectStatus := by
  simp [handleFileUpload, hn]

/-- C5 witness: one byte over the limit with a printable verdict waiting. -/
theorem c5_witness :
    (handleFileUpload (5 * 1024 * 1024 + 1)
        (PipelineOutcome.completed imgA verdict28) initialState).fileError
      = some errTooLarge ∧
    (handleFileUpload (5 * 1024 * 1024 + 1)
        (PipelineOutcome.completed imgA verdict28) initialState).activeStep
      = initialState.activeStep ∧
    (handleFileUpload (5 * 1024 * 1024 + 1)
        (PipelineOutcome.completed imgA verdict28) initialState).logoConfig
      = initialState.logoConfig ∧
    (handleFileUpload (5 * 1024 * 1024 + 1)
        (PipelineOutcome.completed imgA verdict28) initialState).analysis
      = initialState.analysis ∧
    (handleFileUpload (5 * 1024 * 1024 + 1)
        (PipelineOutcome.completed imgA verdict28)
        initialState).processingStatus = initialState.processingStatus ∧
    (handleFileUpload (5 * 1024 * 1024 + 1)
        (PipelineOutcome.completed imgA verdict28)
        initialState).redirectStatus = initialState.redirectStatus :=
  c5_tooLarge (5 * 1024 * 1024 + 1)
    (PipelineOutcome.completed imgA verdict28) initialState (by omega)

/-- C6: from any prior state, resetUpload followed by a completed upload
with a printable verdict lands in the default-placed state: activeStep 3,
offsets (0,0), rotation 0. -/
theorem c6_resetRoundTrip (s : AppState) (a : AnalysisResult) (img : String)
    (n : ℕ) (hn : n ≤ 5 * 1024 * 1024) (h : a.isPrintable = true) :
    (handleFileUpload n (PipelineOutcome.completed img a)
        (resetUpload s)).activeStep = 3 ∧
    (handleFileUpload n (PipelineOutcome.completed img a)
        (resetUpload s)).logoConfig.x = 0 ∧
    (handleFileUpload n (PipelineOutcome.completed img a)
        (resetUpload s)).logoConfig.y = 0 ∧
    (handleFileUpload n (PipelineOutcome.completed img a)
        (resetUpload s)).logoConfig.rotation = 0 := by
  have hn' : ¬ n > 5 * 1024 * 1024 := by omega
  simp [handleFileUpload, hn', runEvents, outcomeEvents, applyEvent, h,
    resetUpload]

/-- C6 witness: round trip from a user-edited transform. -/
theorem c6_witness :
    (handleFileUpload 1000 (PipelineOutcome.completed imgB verdict28)
        (resetUpload editedState)).activeStep = 3 ∧
    (handleFileUpload 1000 (PipelineOutcome.completed imgB verdict28)
        (resetUpload editedState)).logoConfig.x = 0 ∧
    (handleFileUpload 1000 (PipelineOutcome.completed imgB verdict28)
        (resetUpload editedState)).logoConfig.y = 0 ∧
    (handleFileUpload 1000 (PipelineOutcome.completed imgB verdict28)
        (resetUpload editedState)).logoConfig.rotation = 0 :=
  c6_resetRoundTrip editedState verdict28 imgB 1000 (by omega) rfl

/-- C7 counterexample: calling checkout from the uninitialized state is
silently ignored: the state comes back completely unchanged (in
particular no error message of any kind is recorded, fileError stays
none) and no save or redirect handoff is produced. -/
theorem c7_counterexample :
    handleShopifyCheckout initialState = (initialState, none) ∧
    (handleShopifyCheckout initialState).1.fileError = none := by
  refine ⟨rfl, rfl⟩

/-- C7 (amended): when no verdict has been applied, handleShopifyCheckout
returns the state unchanged and performs no save and no redirect; the
failure is silent (the guard just returns), not a loud NotReady error. -/
theorem c7_amended (s : AppState) (h : s.analysis = none) :
    handleShopifyCheckout s = (s, none) := by
  simp [handleShopifyCheckout, h]

/-- C7 witness: the guard fires on the initial state. -/
theorem c7_witness : handleShopifyCheckout initialState
    = (initialState, none) :=
  c7_amended initialState rfl

/-- C8 counterexample: upload A (verdict scale 10, image a.png) starts,
upload B (verdict scale 20, image b.png) starts and completes while A is
in flight, then the stale results of A land: the final transform holds
the image and scale of A, overwriting the transform B had created. -/
theorem c8_counterexample :
    (runEvents initialState
        (staleInterleaving imgA imgB
          { isPrintable := true, recommendedScale := some 10,
            suggestedColors := [], estimatedPrice := 0, reasoning := "" }
          { isPrintable := true, recommendedScale := some 20,
            suggestedColors := [], estimatedPrice := 0, reasoning := "" }
          )).logoConfig.scale = 10 ∧
    (runEvents initialState
        (staleInterleaving imgA imgB
          { isPrintable := true, recommendedScale := some 10,
            suggestedColors := [], estimatedPrice := 0, reasoning := "" }
          { isPrintable := true, recommendedScale := some 20,
            suggestedColors := [], estimatedPrice := 0, reasoning := "" }
          )).logoConfig.url = some imgA := by
  refine ⟨by decide, by decide⟩

/-- C8 (amended): there is no generation counter and no cancellation; the
setState calls of overlapping runs apply in completion order, so when the
stale results of an earlier upload A arrive after a later upload B has
finished, they overwrite the transform of B with the image and the
recommended scale of A (last-completed-wins, not last-submitted-wins). -/
theorem c8_amended (s : AppState) (iA iB : String) (aA aB : AnalysisResult)
    (h : aA.isPrintable = true) :
    (runEvents s (staleInterleaving iA iB aA aB)).logoConfig.url
      = some iA ∧
    (runEvents s (staleInterleaving iA iB aA aB)).logoConfig.scale
      = recommendedScaleOrDefault aA.recommendedScale := by
  cases hB : aB.isPrintable <;>
    simp [runEvents, staleInterleaving, outcomeEvents, applyEvent, h, hB]

/-- C8 witness: the concrete overwrite with verdicts 28 and 100. -/
theorem c8_witness :
    (runEvents initialState
        (staleInterleaving imgA imgB verdict28 verdict100)).logoConfig.url
      = some imgA ∧
    (runEvents initialState
        (staleInterleaving imgA imgB verdict28 verdict100)).logoConfig.scale
      = recommendedScaleOrDefault verdict28.recommendedScale :=
  c8_amended initialState imgA imgB verdict28 verdict100 rfl

/-- C9: when analyzeDesign throws after processLogo already succeeded, the
handler sets the verification error message, returns to step 1 and clears
the processing status, but the logoConfig keeps the processed image url
and the reset transform from that run: the failed run is not rolled back. -/
theorem c9_analysisFailure (n : ℕ) (img : String) (s : AppState)
    (hn : n ≤ 5 * 1024 * 1024) :
    (handleFileUpload n (PipelineOutcome.analysisFailed img) s).fileError
      = some errVerify ∧
    (handleFileUpload n (PipelineOutcome.analysisFailed img) s).activeStep
      = 1 ∧
    (handleFileUpload n
        (PipelineOutcome.analysisFailed img) s).processingStatus = "" ∧
    (handleFileUpload n (PipelineOutcome.analysisFailed img) s).logoConfig
      = { url := some img, x := 0, y := 0, scale := 30, rotation := 0 } := by
  have hn' : ¬ n > 5 * 1024 * 1024 := by omega
  simp [handleFileUpload, hn', runEvents, outcomeEvents, applyEvent]

/-- C9 witness: a concrete failed analysis keeps the processed image. -/
theorem c9_witness :
    (handleFileUpload 1000
        (PipelineOutcome.analysisFailed imgA) editedState).fileError
      = some errVerify ∧
    (handleFileUpload 1000
        (PipelineOutcome.analysisFailed imgA) editedState).activeStep = 1 ∧
    (handleFileUpload 1000
        (PipelineOutcome.analysisFailed imgA) editedState).processingStatus
      = "" ∧
    (handleFileUpload 1000
        (PipelineOutcome.analysisFailed imgA) editedState).logoConfig
      = { url := some imgA, x := 0, y := 0, scale := 30, rotation := 0 } :=
  c9_analysisFailure 1000 imgA editedState (by omega)

/-- C10: resetUpload clears only the image url, the verdict, the step
indicator and the redirect status; x, y, scale and rotation keep their
previous values, as do fileError and processingStatus; and the next
successful processLogo update overwrites the transform with the defaults
x 0, y 0, scale 30, rotation 0. -/
theorem c10_resetFrame (s : AppState) (img : String) :
    (resetUpload s).logoConfig.x = s.logoConfig.x ∧
    (resetUpload s).logoConfig.y = s.logoConfig.y ∧
    (resetUpload s).logoConfig.scale = s.logoConfig.scale ∧
    (resetUpload s).logoConfig.rotation = s.logoConfig.rotation ∧
    (resetUpload s).logoConfig.url = none ∧
    (resetUpload s).analysis = none ∧
    (resetUpload s).activeStep = 1 ∧
    (resetUpload s).redirectStatus = RedirectStatus.idle ∧
    (resetUpload s).fileError = s.fileError ∧
    (resetUpload s).processingStatus = s.processingStatus ∧
    (applyEvent s (UploadEvent.processedLoaded img)).logoConfig
      = { url := some img, x := 0, y := 0, scale := 30, rotation := 0 } := by
  simp [resetUpload, applyEvent]
